import Mathlib

/-!
Verification of the text-to-CAD generator backend.

This file gives a shallow embedding of the prompt-to-parametric-geometry
pipeline found in `src/backend/server.py`, `src/backend/main.py` and
`src/backend/enhanced_parser.py`, and proves (or refutes) the frozen claims
about it.

Modelling conventions:
* Python floats are modelled as exact rationals (`ℚ`); the gear profile,
  which calls `math.cos` / `math.sin`, is modelled over `ℝ` with
  `Real.cos` / `Real.sin`.
* Python dicts carrying dimensions are modelled as association lists
  `List (String × ℚ)` (or `List (String × PyVal)` where string / `None`
  values matter).
* Python truthiness (`a or b` treating `None` and `0.0` as falsy) is
  modelled explicitly by `truthy`, `pyOr2` and `pyOrD`; `dict.get(k, d)`
  (presence based) is modelled by `dimsGetD`.
* Python f-string numeric formatting (e.g. `:.4f`, `:.1f`) is abstracted by
  the exact `toString` rendering of the rational; only the structure and
  (non-)emptiness of the produced strings are used by the claims.
-/

/-- Python truthiness of an optional float: `None` and `0.0` are falsy. -/
def truthy (a : Option ℚ) : Bool :=
  match a with
  | none => false
  | some x => decide (x ≠ 0)

/-- Python `a or b` on two optional floats (left operand wins when truthy). -/
def pyOr2 (a b : Option ℚ) : Option ℚ :=
  if truthy a then a else b

/-- Python `a or d` where `a` is an optional float and `d` a float default. -/
def pyOrD (a : Option ℚ) (d : ℚ) : ℚ :=
  match a with
  | none => d
  | some x => if x = 0 then d else x

/-- Dimension dictionaries: association lists from key to float value. -/
abbrev Dims : Type := List (String × ℚ)

/-- Python `dims.get(k)` (returns `None` when the key is absent). -/
def dimsGet (d : Dims) (k : String) : Option ℚ :=
  ((List.find? (fun p => p.1 == k) d)).map Prod.snd

/-- Python `dims.get(k, v)`: presence-based lookup with default. -/
def dimsGetD (d : Dims) (k : String) (v : ℚ) : ℚ :=
  (dimsGet d k).getD v

/-- Python `int(x)` on a float: truncation toward zero. -/
def pyInt (q : ℚ) : ℤ :=
  if q < 0 then ⌈q⌉ else ⌊q⌋

/-- Python `str.upper()` (ASCII). -/
def pyUpper (s : String) : String := ⟨s.data.map Char.toUpper⟩

/-- Python `str.lower()` (ASCII). -/
def pyLower (s : String) : String := ⟨s.data.map Char.toLower⟩

namespace ToleranceEngine

/-- Embeds `ToleranceEngine.ISO_H7` (server.py lines 150-153 / main.py 121-124):
simplified ISO 286-2 H7 table, bracket `(min, max)` to mean deviation. -/
def ISO_H7 : List ((ℚ × ℚ) × ℚ) :=
  [((0, 3), 0.005), ((3, 6), 0.006), ((6, 10), 0.0075),
   ((10, 18), 0.009), ((18, 30), 0.0105), ((30, 50), 0.0125), ((50, 80), 0.015)]

/-- Embeds `ToleranceEngine.ISO_g6` (server.py lines 156-159 / main.py 127-130):
simplified ISO 286-2 g6 (shaft) table, negative mean deviations. -/
def ISO_g6 : List ((ℚ × ℚ) × ℚ) :=
  [((0, 3), -0.004), ((3, 6), -0.008), ((6, 10), -0.009),
   ((10, 18), -0.011), ((18, 30), -0.013), ((30, 50), -0.016)]

/-- The bracket scan inside `get_adjustment`: first bracket with
`min_size < nominal <= max_size`, returning the mean deviation. -/
def findBracket (table : List ((ℚ × ℚ) × ℚ)) (nominal : ℚ) : Option ℚ :=
  match table with
  | [] => none
  | ((mn, mx), adj) :: rest =>
      if mn < nominal ∧ nominal ≤ mx then some adj else findBracket rest nominal

/-- The note f-string of `get_adjustment` (server.py line 173):
`f"Modeled at {final_val:.4f}mm ({nominal}mm {fit_class} Mean)"`, with the
`:.4f` float formatting abstracted by the exact rational rendering. -/
def mkNote (nominal adj : ℚ) (fit_class : String) : String :=
  "Modeled at " ++ toString (nominal + adj) ++ "mm (" ++
    toString nominal ++ "mm " ++ fit_class ++ " Mean)"

/-- Embeds `ToleranceEngine.get_adjustment` (server.py lines 161-175 / main.py
132-146).  Table selection is exactly the two conditions of the source:
`fit_class.upper() == "H7"` then `fit_class.lower() == "G6"`. -/
def get_adjustment (nominal : ℚ) (fit_class : String) : ℚ × String :=
  let table : Option (List ((ℚ × ℚ) × ℚ)) :=
    if pyUpper fit_class = "H7" then some ISO_H7
    else if pyLower fit_class = "G6" then some ISO_g6
    else none
  match table with
  | none => (0, "")
  | some t =>
    match findBracket t nominal with
    | some adj => (adj, mkNote nominal adj fit_class)
    | none => (0, "")

end ToleranceEngine

namespace CodeGenerator

/-- Embeds `tooth_depth = outer_radius * 0.15` from the generated gear script
(server.py line 560 / main.py line 260). -/
noncomputable def tooth_depth (outer_radius : ℝ) : ℝ := outer_radius * 0.15

/-- Embeds `base_radius = outer_radius - tooth_depth` (server.py line 561). -/
noncomputable def base_radius (outer_radius : ℝ) : ℝ :=
  outer_radius - tooth_depth outer_radius

/-- One vertex of the gear polygon (server.py lines 563-569 / main.py
263-269): `tooth_angle = 2*pi/num_teeth`, `angle = (i * tooth_angle) / 2`,
radius alternating between `outer_radius` (even `i`) and `base_radius`. -/
noncomputable def gearPoint (outer_radius : ℝ) (num_teeth : ℕ) (i : ℕ) : ℝ × ℝ :=
  let tooth_angle : ℝ := 2 * Real.pi / num_teeth
  let angle : ℝ := (i * tooth_angle) / 2
  let r_curr : ℝ := if i % 2 = 0 then outer_radius else base_radius outer_radius
  (r_curr * Real.cos angle, r_curr * Real.sin angle)

/-- The gear profile vertex list: `for i in range(num_teeth * 2 + 1)`
(server.py line 564 / main.py line 264). -/
noncomputable def gearPoints (outer_radius : ℝ) (num_teeth : ℕ) : List (ℝ × ℝ) :=
  (List.range (num_teeth * 2 + 1)).map (gearPoint outer_radius num_teeth)

/-- Box parameters in `CodeGenerator.generate` of `server.py` (lines 512-515):
`l = float(dims.get("length") or 50)` etc. — Python `or` treats a present
`0.0` as falsy, so it falls through to the default. -/
def serverBoxParams (dims : Dims) : ℚ × ℚ × ℚ :=
  (pyOrD (dimsGet dims "length") 50,
   pyOrD (dimsGet dims "width") 50,
   pyOrD (dimsGet dims "height") 10)

/-- Box parameters in `CodeGenerator.generate` of `main.py` (lines 215-218):
`l = float(dims.get("length", 50))` etc. — presence-based default. -/
def mainBoxParams (dims : Dims) : ℚ × ℚ × ℚ :=
  (dimsGetD dims "length" 50,
   dimsGetD dims "width" 50,
   dimsGetD dims "height" 10)

end CodeGenerator

namespace EnhancedParser

/-- The diameter / radius slots of the DimensionSet built by
`EnhancedParser.extract_dimensions_with_tolerance`; the claims about the
radius↔diameter derivation concern only these two keys, which no earlier
pattern of the function touches. -/
structure DiaRad where
  diameter : Option ℚ
  radius : Option ℚ
deriving DecidableEq

/-- The diameter / radius section of
`EnhancedParser.extract_dimensions_with_tolerance`
(enhanced_parser.py lines 91-108), as a function of the (unit-converted)
regex match results `diaMatch` (the diameter pattern) and `radMatch` (the
radius pattern).  Faithful to the source:
* if the diameter pattern matched, `dims["diameter"]` is assigned and
  `dims["radius"] = dims["diameter"] / 2` is assigned unconditionally;
* if the radius pattern matched AND `"radius" not in dims`, then
  `dims["radius"]` is assigned and `dims["diameter"] = dims["radius"] * 2`. -/
def applyDiaRad (s : DiaRad) (diaMatch radMatch : Option ℚ) : DiaRad :=
  let s1 : DiaRad :=
    match diaMatch with
    | some v => { diameter := some v, radius := some (v / 2) }
    | none => s
  match radMatch with
  | some v => if s1.radius.isSome then s1 else { diameter := some (v * 2), radius := some v }
  | none => s1

/-- A value stored in the parsed-dimension dict: Python `None`, a float,
or a string (unit / fit-code entries such as `dims["fit"] = "H7"`). -/
inductive PyVal where
  | pynone : PyVal
  | pynum : ℚ → PyVal
  | pystr : String → PyVal
deriving DecidableEq

/-- Embeds `isinstance(value, (int, float))` on a stored value. -/
def isNumeric : PyVal → Bool
  | .pynum _ => true
  | _ => false

/-- The result dict of `EnhancedParser.validate_parsed_dimensions`. -/
structure ValidationReport where
  valid : Bool
  errors : List String
  warnings : List String
  dimension_count : ℕ
deriving DecidableEq

/-- Embeds `EnhancedParser.validate_parsed_dimensions` (enhanced_parser.py lines
246-296).  The dead locals `numbers_in_prompt` and `parsed_values` (computed
but never used by the result) are elided; `original_prompt` is kept as an
(unused) argument for fidelity. -/
def validate_parsed_dimensions (dims : List (String × PyVal))
    (_original_prompt : String) : ValidationReport :=
  let errors : List String :=
    if dims.isEmpty || dims.all (fun p => p.2 == PyVal.pynone) then
      ["No dimensions extracted from prompt"]
    else []
  let rangeWarnings : List String :=
    dims.flatMap (fun p =>
      match p.2 with
      | .pynum q =>
          (if q > 10000 then
            [p.1 ++ ": " ++ toString q ++ "mm seems very large. Check units."]
           else []) ++
          (if q < 0.1 then
            [p.1 ++ ": " ++ toString q ++ "mm seems very small. Check units."]
           else [])
      | _ => [])
  let shapeVal : PyVal :=
    ((List.find? (fun p => p.1 == "shape") dims).map Prod.snd).getD
      (PyVal.pystr "unknown")
  let hasKey : String → Bool := fun k => dims.any (fun p => p.1 == k)
  let shapeWarnings : List String :=
    if shapeVal == PyVal.pystr "box" then
      if !(["length", "width", "height"].all hasKey) then
        ["Box should have length, width, and height"]
      else []
    else if shapeVal == PyVal.pystr "cylinder" then
      if !hasKey "radius" && !hasKey "diameter" then
        ["cylinder should have radius or diameter"]
      else []
    else if shapeVal == PyVal.pystr "sphere" then
      if !hasKey "radius" && !hasKey "diameter" then
        ["sphere should have radius or diameter"]
      else []
    else []
  { valid := errors.isEmpty
    errors := errors
    warnings := rangeWarnings ++ shapeWarnings
    dimension_count := (dims.filter (fun p => isNumeric p.2)).length }

/-- Embeds `EnhancedParser.UNIT_CONVERSIONS` (enhanced_parser.py lines 16-34):
fixed multipliers to millimetres. -/
def UNIT_CONVERSIONS : List (String × ℚ) :=
  [("mm", 1.0), ("millimeter", 1.0), ("millimeters", 1.0),
   ("cm", 10.0), ("centimeter", 10.0), ("centimeters", 10.0),
   ("m", 1000.0), ("meter", 1000.0), ("meters", 1000.0),
   ("in", 25.4), ("inch", 25.4), ("inches", 25.4), ("\x22", 25.4),
   ("ft", 304.8), ("foot", 304.8), ("feet", 304.8), ("\x27", 304.8)]

/-- Embeds `EnhancedParser.UNIT_CONVERSIONS.get(unit, 1.0)`. -/
def convFactor (unit : String) : ℚ :=
  ((List.find? (fun p => p.1 == unit) UNIT_CONVERSIONS).map Prod.snd).getD 1.0

/-- Embeds `Decimal.quantize(Decimal("0.000001"), rounding=ROUND_HALF_UP)`
(enhanced_parser.py line 131): round to six decimal places, ties away from
zero. -/
def quantize6 (x : ℚ) : ℚ :=
  if x < 0 then -((⌊-x * 1000000 + 1 / 2⌋ : ℚ) / 1000000)
  else (⌊x * 1000000 + 1 / 2⌋ : ℚ) / 1000000

/-- The per-dimension store step of `extract_dimensions_with_tolerance`
(enhanced_parser.py lines 69-71 etc. and the final rounding loop at lines
128-131): `value * UNIT_CONVERSIONS.get(unit, 1.0)` quantized to six
decimal places. -/
def storeDim (value : ℚ) (unit : String) : ℚ :=
  quantize6 (value * convFactor unit)

end EnhancedParser

namespace CodeGenerator

/-- A cylinder primitive emitted by the generated script:
`Part.makeCylinder(radius, height)` optionally followed by
`translate(FreeCAD.Vector(0, 0, zpos))`; the washer / tube branches emit no
translate, so their cylinders sit at `zpos = 0`. -/
structure Cyl where
  radius : ℚ
  height : ℚ
  zpos : ℚ
deriving DecidableEq

/-- An `outer.cut(inner)` boolean plan of two concentric cylinders (both on
the z-axis at x = y = 0, as emitted by the washer / tube branches). -/
structure CutPlan where
  outer : Cyl
  inner : Cyl
deriving DecidableEq

/-- The washer branch of `CodeGenerator.generate` of `server.py`
(lines 597-612): `outer_d = dims.get("diameter") or dims.get("outer_diameter")
or 20`, `inner_d = dims.get("inner_diameter") or outer_d * 0.5`,
`thickness = dims.get("height") or dims.get("thickness") or 2`;
`outer = Part.makeCylinder(outer_d/2, thickness)`,
`inner = Part.makeCylinder(inner_d/2, thickness)`, `outer.cut(inner)`. -/
def washerPlan (dims : Dims) : CutPlan :=
  let outer_d := pyOrD (pyOr2 (dimsGet dims "diameter") (dimsGet dims "outer_diameter")) 20
  let inner_d := pyOrD (dimsGet dims "inner_diameter") (outer_d * 0.5)
  let thickness := pyOrD (pyOr2 (dimsGet dims "height") (dimsGet dims "thickness")) 2
  { outer := ⟨outer_d / 2, thickness, 0⟩, inner := ⟨inner_d / 2, thickness, 0⟩ }

/-- The tube branch of `CodeGenerator.generate` of `server.py`
(lines 614-629): `outer_d = dims.get("outer_diameter") or dims.get("diameter")
or 30`, `inner_d = dims.get("inner_diameter") or outer_d * 0.7`,
`height = dims.get("height") or dims.get("length") or 100`; both cylinders
are made with the same `height` and no translation. -/
def tubePlan (dims : Dims) : CutPlan :=
  let outer_d := pyOrD (pyOr2 (dimsGet dims "outer_diameter") (dimsGet dims "diameter")) 30
  let inner_d := pyOrD (dimsGet dims "inner_diameter") (outer_d * 0.7)
  let height := pyOrD (pyOr2 (dimsGet dims "height") (dimsGet dims "length")) 100
  { outer := ⟨outer_d / 2, height, 0⟩, inner := ⟨inner_d / 2, height, 0⟩ }

/-- The reading the claim gives of a clean boolean cut: the cutting (inner)
cylinder starts below the outer solid and ends above it. -/
def extendsBeyondBothEnds (p : CutPlan) : Prop :=
  p.inner.zpos < p.outer.zpos ∧
  p.outer.zpos + p.outer.height < p.inner.zpos + p.inner.height

/-- The parametric solid described by the script emitted by
`CodeGenerator.generate`, one constructor per branch. -/
inductive Plan where
  | box (l w h : ℚ)
  | cylinder (r h : ℚ)
  | sphere (r : ℚ)
  | gear (outer_radius h : ℚ) (num_teeth : ℤ)
  | bolt (head_radius head_height shaft_radius len : ℚ)
  | washer (p : CutPlan)
  | tube (p : CutPlan)
  | plateWithHole (l w h hole_radius cx cy : ℚ)
  | headerOnly
deriving DecidableEq

/-- Result of `CodeGenerator.generate`: the source returns a script string
and a notes list, with the `except` branch returning `("", [])`.  `ok`
carries the structured content of a non-empty script; `failed` stands for
the empty-script return of the `except` branch. -/
inductive GenResult where
  | ok (plan : Plan) (notes : List String)
  | failed
deriving DecidableEq

/-- Embeds `CodeGenerator.generate` of `server.py` (lines 498-670), with the emitted
script abstracted to its `Plan`.  `fit` mirrors `dims.get("fit")` (the one
string-valued dict entry, carried separately because `Dims` holds floats).
Over rational inputs every branch constructs its plan totally, so the
`except` branch (which returns the empty script) is unreachable. -/
def serverGenerate (shape : String) (dims : Dims) (fit : Option String) : GenResult :=
  if shape = "box" then
    let l := pyOrD (dimsGet dims "length") 50
    let w := pyOrD (dimsGet dims "width") 50
    let h := pyOrD (dimsGet dims "height") 10
    .ok (.box l w h) []
  else if shape = "cylinder" ∨ shape = "piston" ∨ shape = "flange" then
    let diameter := pyOrD (dimsGet dims "diameter") 20
    let r := pyOrD (dimsGet dims "radius") (diameter / 2)
    let h := pyOrD (dimsGet dims "height") 50
    match fit with
    | some f =>
        let adj := (ToleranceEngine.get_adjustment (r * 2) f).1
        let note := (ToleranceEngine.get_adjustment (r * 2) f).2
        if adj ≠ 0 then .ok (.cylinder (r + adj / 2) h) [note]
        else .ok (.cylinder r h) []
    | none => .ok (.cylinder r h) []
  else if shape = "sphere" then
    let diameter := pyOrD (dimsGet dims "diameter") 40
    let r := pyOrD (dimsGet dims "radius") (diameter / 2)
    .ok (.sphere r) []
  else if shape = "gear" then
    let diameter := pyOrD (dimsGet dims "diameter") 60
    let r := pyOrD (dimsGet dims "radius") (diameter / 2)
    let h := pyOrD (dimsGet dims "height") 10
    let teeth := pyInt (pyOrD (dimsGet dims "teeth") 20)
    .ok (.gear r h teeth) []
  else if shape = "bolt" then
    let diameter := pyOrD (dimsGet dims "diameter") 8
    let len := pyOrD (pyOr2 (dimsGet dims "length") (dimsGet dims "height")) 40
    let head_height := diameter * 0.7
    let head_diameter := diameter * 1.8
    .ok (.bolt (head_diameter / 2) head_height (diameter / 2) len)
      ["Bolt: M" ++ toString (pyInt diameter) ++ " x " ++ toString len ++ "mm"]
  else if shape = "washer" then
    let p := washerPlan dims
    .ok (.washer p)
      ["Washer: OD " ++ toString (p.outer.radius * 2) ++ "mm, ID " ++
        toString (p.inner.radius * 2) ++ "mm, T " ++ toString p.outer.height ++ "mm"]
  else if shape = "tube" then
    let p := tubePlan dims
    .ok (.tube p)
      ["Tube: OD " ++ toString (p.outer.radius * 2) ++ "mm, ID " ++
        toString (p.inner.radius * 2) ++ "mm, L " ++ toString p.outer.height ++ "mm"]
  else if shape = "plate_with_hole" then
    let l := pyOrD (dimsGet dims "length") 50
    let w := pyOrD (dimsGet dims "width") 50
    let h := pyOrD (dimsGet dims "height") 10
    let hole_d := pyOrD (pyOr2 (dimsGet dims "hole_diameter") (dimsGet dims "diameter"))
      (min l w * 0.3)
    .ok (.plateWithHole l w h (hole_d / 2) (l / 2) (w / 2))
      ["Plate with " ++ toString hole_d ++ "mm center hole"]
  else
    .ok (.box 50 50 10) []

/-- Embeds `CodeGenerator.generate` of `main.py` (lines 201-289).  Presence-based
`dims.get(k, default)` lookups; only box / cylinder / sphere / gear
branches exist, and a shape matching none of them falls through to the
footer with no `base` object (`headerOnly`). -/
def mainGenerate (shape : String) (dims : Dims) (fit : Option String) : GenResult :=
  if shape = "box" then
    .ok (.box (dimsGetD dims "length" 50) (dimsGetD dims "width" 50)
      (dimsGetD dims "height" 10)) []
  else if shape = "cylinder" ∨ shape = "piston" ∨ shape = "flange" then
    let r := dimsGetD dims "radius" (dimsGetD dims "diameter" 20 / 2)
    let h := dimsGetD dims "height" 50
    match fit with
    | some f =>
        let adj := (ToleranceEngine.get_adjustment (r * 2) f).1
        let note := (ToleranceEngine.get_adjustment (r * 2) f).2
        if adj ≠ 0 then .ok (.cylinder (r + adj / 2) h) [note]
        else .ok (.cylinder r h) []
    | none => .ok (.cylinder r h) []
  else if shape = "sphere" then
    .ok (.sphere (dimsGetD dims "radius" (dimsGetD dims "diameter" 40 / 2))) []
  else if shape = "gear" then
    let r := dimsGetD dims "radius" (dimsGetD dims "diameter" 60 / 2)
    let h := dimsGetD dims "height" 10
    let teeth := pyInt (dimsGetD dims "teeth" 20)
    .ok (.gear r h teeth) []
  else
    .ok .headerOnly []

end CodeGenerator

namespace DFMAnalyzer

/-- One entry of `DFMAnalyzer.MATERIALS` (server.py lines 188-196). -/
structure MatProps where
  density : ℚ
  price_per_gram : ℚ
  machinability : ℚ
  name : String
deriving DecidableEq

/-- Embeds `DFMAnalyzer.MATERIALS["steel"]`. -/
def steelProps : MatProps := ⟨7.85, 0.055, 0.7, "Steel (MS)"⟩

/-- Embeds `DFMAnalyzer.MATERIALS` (server.py lines 188-196). -/
def MATERIALS : List (String × MatProps) :=
  [("steel", steelProps),
   ("aluminum", ⟨2.70, 0.29, 0.9, "Aluminum"⟩),
   ("abs_plastic", ⟨1.04, 0.15, 1.0, "ABS Plastic"⟩),
   ("titanium", ⟨4.43, 5.50, 0.3, "Titanium Gr5"⟩),
   ("brass", ⟨8.73, 0.70, 0.85, "Brass"⟩),
   ("polycarb", ⟨1.20, 0.20, 0.95, "Polycarbonate"⟩),
   ("copper", ⟨8.96, 1.16, 0.75, "Copper"⟩)]

/-- Embeds `DFMAnalyzer.MATERIALS.get(material, DFMAnalyzer.MATERIALS["steel"])`
(server.py lines 262 and 329): lookup with fallback to the steel entry. -/
def materialsGet (material : String) : MatProps :=
  ((List.find? (fun p => p.1 == material) MATERIALS).map Prod.snd).getD steelProps

/-- A structured DFM warning dict `{type, severity, message, suggestion}`. -/
structure DFMWarning where
  wtype : String
  severity : String
  message : String
  suggestion : String
deriving DecidableEq

/-- The dict returned by `DFMAnalyzer.analyze`. -/
structure DFMReport where
  score : ℤ
  warnings : List DFMWarning
  suggestions : List String
  recommended_process : String
  material : String
deriving DecidableEq

/-- Embeds `DFMAnalyzer.analyze` (server.py lines 198-308).  Python `str.title()`
on the (single-word) material name is modelled by `String.capitalize`, and
`:.1f` float formatting inside messages by the exact rational rendering. -/
def analyze (shape : String) (dims : Dims) (material : String) : DFMReport :=
  let length := pyOrD (pyOr2 (dimsGet dims "length") (dimsGet dims "diameter")) 50
  let width := pyOrD (pyOr2 (dimsGet dims "width") (dimsGet dims "diameter")) 50
  let height := pyOrD (dimsGet dims "height") 10
  -- Rule 1: wall thickness
  let w1 : List DFMWarning :=
    if shape = "box" ∧ height < 2 then
      [⟨"wall_thickness", "high",
        "Wall thickness " ++ toString height ++ "mm is too thin for CNC machining",
        "Increase thickness to at least 2mm for structural integrity"⟩]
    else []
  let s1 : ℤ := if shape = "box" ∧ height < 2 then 20 else 0
  -- Rule 2: aspect ratio
  let aspect := max length width / max height 1
  let w2 : List DFMWarning :=
    if shape = "box" ∧ aspect > 20 then
      [⟨"aspect_ratio", "medium",
        "High aspect ratio (" ++ toString aspect ++ ":1) may cause warping",
        "Add ribs or reduce length-to-thickness ratio"⟩]
    else []
  let s2 : ℤ := if shape = "box" ∧ aspect > 20 then 10 else 0
  -- Rule 3: deep pocket
  let diameter3 := pyOrD (dimsGet dims "diameter") (dimsGetD dims "radius" 10 * 2)
  let w3 : List DFMWarning :=
    if (shape = "cylinder" ∨ shape = "gear") ∧ height > diameter3 * 4 then
      [⟨"deep_pocket", "medium",
        "Depth-to-diameter ratio (" ++ toString (height / diameter3) ++ ") exceeds 4:1",
        "Consider split machining or EDM process"⟩]
    else []
  let s3 : ℤ := if (shape = "cylinder" ∨ shape = "gear") ∧ height > diameter3 * 4 then 15 else 0
  -- Rule 4: small features
  let teeth := pyOrD (dimsGet dims "teeth") 20
  let diameter4 := pyOrD (dimsGet dims "diameter") 60
  let tooth_size := 3.14159 * diameter4 / teeth
  let w4 : List DFMWarning :=
    if shape = "gear" ∧ tooth_size < 3 then
      [⟨"small_features", "high",
        "Tooth pitch " ++ toString tooth_size ++ "mm may be difficult to machine",
        "Reduce tooth count or increase diameter"⟩]
    else []
  let s4 : ℤ := if shape = "gear" ∧ tooth_size < 3 then 15 else 0
  -- Rule 5: material-specific
  let mat_props := materialsGet material
  let w5 : List DFMWarning :=
    if mat_props.machinability < 0.5 ∧ shape = "gear" then
      [⟨"material_difficulty", "medium",
        material.capitalize ++ " is difficult to machine for complex shapes",
        "Consider aluminum or brass for gears"⟩]
    else []
  let s5 : ℤ := if mat_props.machinability < 0.5 ∧ shape = "gear" then 10 else 0
  let warns := w1 ++ w2 ++ w3 ++ w4 ++ w5
  let score : ℤ := 100 - s1 - s2 - s3 - s4 - s5
  -- Recommended process
  let volume : ℚ :=
    if shape = "box" then length * width * height
    else if shape = "bolt" ∨ shape = "cylinder" ∨ shape = "piston" ∨ shape = "flange" then
      let radius := pyOrD (dimsGet dims "radius") (pyOrD (dimsGet dims "diameter") 10 / 2)
      let h := pyOrD (pyOr2 (dimsGet dims "height") (dimsGet dims "length")) 40
      3.14159 * radius ^ 2 * h
    else if shape = "washer" ∨ shape = "tube" then
      let outer_d := pyOrD (dimsGet dims "diameter") 20
      let thickness := pyOrD (dimsGet dims "height") 5
      3.14159 * (outer_d / 2) ^ 2 * thickness * 0.5
    else if shape = "plate_with_hole" then length * width * height * 0.9
    else length * width * height
  let process :=
    if volume < 1000 then
      if mat_props.machinability > 0.5 then "CNC Milling" else "Wire EDM"
    else if material = "abs_plastic" ∨ material = "polycarb" then
      "3D Printing (FDM/SLA)"
    else if shape = "cylinder" ∨ shape = "bolt" ∨ shape = "tube" then "CNC Turning"
    else "CNC Milling"
  let suggestions :=
    (if score = 100 then ["Design meets all DFM guidelines ✓"] else []) ++
    (if warns.length > 0 then
      ["Address " ++ toString warns.length ++ " warning(s) to improve manufacturability"]
     else [])
  { score := max 0 score
    warnings := warns
    suggestions := suggestions
    recommended_process := process
    material := material }

end DFMAnalyzer

namespace CostCalculator

/-- Embeds `CostCalculator.HOURLY_RATE` (server.py line 319). -/
def HOURLY_RATE : ℚ := 600.0

/-- Embeds `CostCalculator.SETUP_COST` (server.py line 320). -/
def SETUP_COST : ℚ := 500.0

/-- The dict returned by `CostCalculator.calculate`.  The source applies
display rounding (`round(x, 2)` / `round(x, 1)`) when building the
returned dict; the fields here hold the computed pre-rounding values. -/
structure CostEstimate where
  material_cost : ℚ
  machining_time_min : ℚ
  machining_cost : ℚ
  setup_cost : ℚ
  total_cost : ℚ
  weight_grams : ℚ
  volume_cm3 : ℚ
  qty_pricing : List (ℕ × ℚ)
  currency : String
deriving DecidableEq

/-- The per-shape `(volume, surface_area)` computation of
`CostCalculator.calculate` (server.py lines 331-384).  The gear branch
binds `teeth` in the source but never uses it; that dead local is elided. -/
def geom (shape : String) (dims : Dims) : ℚ × ℚ :=
  if shape = "box" then
    let length := pyOrD (dimsGet dims "length") 50
    let width := pyOrD (dimsGet dims "width") 50
    let height := pyOrD (dimsGet dims "height") 10
    (length * width * height,
     2 * (length * width + width * height + height * length))
  else if shape = "cylinder" ∨ shape = "piston" ∨ shape = "flange" then
    let radius := pyOrD (dimsGet dims "radius") (pyOrD (dimsGet dims "diameter") 20 / 2)
    let height := pyOrD (dimsGet dims "height") 50
    (3.14159 * radius ^ 2 * height, 2 * 3.14159 * radius * (radius + height))
  else if shape = "sphere" then
    let radius := pyOrD (dimsGet dims "radius") (pyOrD (dimsGet dims "diameter") 40 / 2)
    (4 / 3 * 3.14159 * radius ^ 3, 4 * 3.14159 * radius ^ 2)
  else if shape = "gear" then
    let radius := pyOrD (dimsGet dims "radius") (pyOrD (dimsGet dims "diameter") 60 / 2)
    let height := pyOrD (dimsGet dims "height") 10
    (3.14159 * radius ^ 2 * height * 0.85,
     (2 * 3.14159 * radius * height + 2 * 3.14159 * radius ^ 2) * 1.5)
  else if shape = "bolt" then
    let diameter := pyOrD (dimsGet dims "diameter") 8
    let length := pyOrD (pyOr2 (dimsGet dims "length") (dimsGet dims "height")) 40
    let head_height := diameter * 0.7
    let head_diameter := diameter * 1.8
    (3.14159 * (head_diameter / 2) ^ 2 * head_height +
       3.14159 * (diameter / 2) ^ 2 * length,
     3.14159 * head_diameter * head_height + 3.14159 * diameter * length)
  else if shape = "washer" then
    let outer_d := pyOrD (dimsGet dims "diameter") 20
    let inner_d := pyOrD (dimsGet dims "inner_diameter") (outer_d * 0.5)
    let thickness := pyOrD (pyOr2 (dimsGet dims "height") (dimsGet dims "thickness")) 2
    (3.14159 * thickness * ((outer_d / 2) ^ 2 - (inner_d / 2) ^ 2),
     2 * 3.14159 * ((outer_d / 2) ^ 2 - (inner_d / 2) ^ 2) +
       3.14159 * thickness * (outer_d + inner_d))
  else if shape = "tube" then
    let outer_d := pyOrD (pyOr2 (dimsGet dims "outer_diameter") (dimsGet dims "diameter")) 30
    let inner_d := pyOrD (dimsGet dims "inner_diameter") (outer_d * 0.7)
    let height := pyOrD (pyOr2 (dimsGet dims "height") (dimsGet dims "length")) 100
    (3.14159 * height * ((outer_d / 2) ^ 2 - (inner_d / 2) ^ 2),
     2 * 3.14159 * ((outer_d / 2) ^ 2 - (inner_d / 2) ^ 2) +
       3.14159 * height * (outer_d + inner_d))
  else if shape = "plate_with_hole" then
    let length := pyOrD (dimsGet dims "length") 50
    let width := pyOrD (dimsGet dims "width") 50
    let height := pyOrD (dimsGet dims "height") 10
    let hole_d := pyOrD (pyOr2 (dimsGet dims "hole_diameter") (dimsGet dims "diameter"))
      (min length width * 0.3)
    (length * width * height - 3.14159 * (hole_d / 2) ^ 2 * height,
     2 * (length * width + width * height + height * length) + 3.14159 * hole_d * height)
  else
    (50 * 50 * 10, 2 * (50 * 50 + 50 * 10 + 10 * 50))

/-- Embeds `CostCalculator.calculate` (server.py lines 323-422). -/
def calculate (shape : String) (dims : Dims) (material : String) : CostEstimate :=
  let mat_props := DFMAnalyzer.materialsGet material
  let vs := geom shape dims
  let volume := vs.1
  let surface_area := vs.2
  let volume_cm3 := volume / 1000
  let weight_grams := volume_cm3 * mat_props.density
  let material_cost := weight_grams * mat_props.price_per_gram
  let complexity : ℚ := if shape = "box" then 1.0 else if shape = "cylinder" then 1.5 else 2.5
  let machining_time_min := max 5 (surface_area / 100 * complexity / mat_props.machinability)
  let machining_cost := machining_time_min / 60 * HOURLY_RATE
  let total_cost := SETUP_COST + material_cost + machining_cost
  { material_cost := material_cost
    machining_time_min := machining_time_min
    machining_cost := machining_cost
    setup_cost := SETUP_COST
    total_cost := total_cost
    weight_grams := weight_grams
    volume_cm3 := volume_cm3
    qty_pricing := [(1, total_cost), (10, total_cost * 0.85),
      (100, total_cost * 0.65), (1000, total_cost * 0.45)]
    currency := "₹" }

end CostCalculator

/-- A DimensionSet carrying exactly length, width and height. -/
def boxDims (l w h : ℚ) : Dims := [("length", l), ("width", w), ("height", h)]

/-!
## Theorems
-/

/-- C1: the claim asserts that a `g6` lookup inside a defined bracket of the
g6 table returns the non-zero deviation of that bracket with a note.  In the code
the guard `fit_class.lower() == "G6"` can never hold (`lower()` never yields
an upper-case letter), so the `ISO_g6` table is unreachable: every `g6`
lookup returns `(0.0, "")`, even for a nominal size such as `10`, which sits
inside the `(6, 10]` bracket whose listed mean deviation is `-0.009`. -/
theorem g6_bracket_unreachable :
    (∀ nominal : ℚ, ToleranceEngine.get_adjustment nominal "g6" = (0, "")) ∧
    ToleranceEngine.findBracket ToleranceEngine.ISO_g6 10 = some (-0.009) ∧
    (-0.009 : ℚ) ≠ 0 ∧
    ToleranceEngine.get_adjustment 10 "g6" = (0, "") ∧
    ToleranceEngine.get_adjustment 10 "H7" =
      (0.0075, ToleranceEngine.mkNote 10 0.0075 "H7") := by
  have h1 : pyUpper "g6" ≠ "H7" := by decide
  have h2 : pyLower "g6" ≠ "G6" := by decide
  have hall : ∀ nominal : ℚ, ToleranceEngine.get_adjustment nominal "g6" = (0, "") := by
    intro nominal
    simp [ToleranceEngine.get_adjustment, h1, h2]
  have h3 : pyUpper "H7" = "H7" := by decide
  refine ⟨hall, ?_, by norm_num, hall 10, ?_⟩
  · norm_num [ToleranceEngine.findBracket, ToleranceEngine.ISO_g6]
  · simp only [ToleranceEngine.get_adjustment, h3, if_pos]
    norm_num [ToleranceEngine.findBracket, ToleranceEngine.ISO_H7]

/-- C3: the claim asserts (for both generators) that a present dimension is
never replaced by the default, including a present `0`.  `main.py` uses
presence-based `dims.get("height", 10)` and keeps the present `0`, but
`server.py` uses `dims.get("height") or 10`, whose falsy check replaces a
present `0` height with the default `10`. -/
theorem server_box_falsy_default_eval :
    CodeGenerator.serverBoxParams (boxDims 50 50 0) = (50, 50, 10) ∧
    CodeGenerator.mainBoxParams (boxDims 50 50 0) = (50, 50, 0) ∧
    CodeGenerator.serverBoxParams (boxDims 50 50 50) = (50, 50, 50) := by
  refine ⟨?_, ?_, ?_⟩ <;>
    simp +decide [CodeGenerator.serverBoxParams, CodeGenerator.mainBoxParams, boxDims,
      dimsGet, dimsGetD, pyOrD, List.find?]

/-- C2: for any outer radius and any number of teeth `N ≥ 1`, the gear
profile has exactly `2N+1` vertices; the vertex at index `i` sits at radius
`outer` (even `i`) or `base_radius = outer - 0.15 * outer` (odd `i`) and at
angle `i * ((2π/N)/2)`; and the first and last vertices both equal
`(outer, 0)`, closing the profile. -/
theorem gear_profile_polygon (outer : ℝ) (N : ℕ) (h : 1 ≤ N) :
    (CodeGenerator.gearPoints outer N).length = 2 * N + 1 ∧
    (∀ i, i < 2 * N + 1 →
      (CodeGenerator.gearPoints outer N)[i]? =
        some ((if i % 2 = 0 then outer else outer - 0.15 * outer) *
                Real.cos (i * (2 * Real.pi / N / 2)),
              (if i % 2 = 0 then outer else outer - 0.15 * outer) *
                Real.sin (i * (2 * Real.pi / N / 2)))) ∧
    (CodeGenerator.gearPoints outer N)[0]? = some (outer, 0) ∧
    (CodeGenerator.gearPoints outer N)[2 * N]? = some (outer, 0) := by
  have hN : (N : ℝ) ≠ 0 := Nat.cast_ne_zero.mpr (by omega)
  have hlen : (CodeGenerator.gearPoints outer N).length = 2 * N + 1 := by
    simp [CodeGenerator.gearPoints]
    omega
  have hpt : ∀ i, i < 2 * N + 1 →
      (CodeGenerator.gearPoints outer N)[i]? =
        some (CodeGenerator.gearPoint outer N i) := by
    intro i hi
    have hi2 : i < N * 2 + 1 := by omega
    simp [CodeGenerator.gearPoints, List.getElem?_range, hi2]
  have hform : ∀ i : ℕ, CodeGenerator.gearPoint outer N i =
      ((if i % 2 = 0 then outer else outer - 0.15 * outer) *
          Real.cos (i * (2 * Real.pi / N / 2)),
       (if i % 2 = 0 then outer else outer - 0.15 * outer) *
          Real.sin (i * (2 * Real.pi / N / 2))) := by
    intro i
    have harg : ((i : ℝ) * (2 * Real.pi / N)) / 2 = i * (2 * Real.pi / N / 2) := by
      ring
    have hbase : outer - outer * 0.15 = outer - 0.15 * outer := by ring
    simp only [CodeGenerator.gearPoint, CodeGenerator.base_radius, CodeGenerator.tooth_depth]
    rw [harg, hbase]
  refine ⟨hlen, ?_, ?_, ?_⟩
  · intro i hi
    rw [hpt i hi, hform i]
  · rw [hpt 0 (by omega), hform 0]
    simp
  · rw [hpt (2 * N) (by omega), hform (2 * N)]
    have h2 : 2 * N % 2 = 0 := by omega
    have harg2 : (((2 * N : ℕ)) : ℝ) * (2 * Real.pi / (N : ℝ) / 2) = 2 * Real.pi := by
      push_cast
      field_simp
      ring
    rw [if_pos h2, harg2, Real.cos_two_pi, Real.sin_two_pi, mul_one, mul_zero]

/-- Witness for C2 at `outer = 2`, `N = 3`. -/
theorem gear_profile_polygon_witness :
    1 ≤ 3 ∧
    ((CodeGenerator.gearPoints 2 3).length = 2 * 3 + 1 ∧
     (∀ i : ℕ, i < 2 * 3 + 1 →
       (CodeGenerator.gearPoints 2 3)[i]? =
         some ((if i % 2 = 0 then (2 : ℝ) else 2 - 0.15 * 2) *
                 Real.cos (i * (2 * Real.pi / ((3 : ℕ) : ℝ) / 2)),
               (if i % 2 = 0 then (2 : ℝ) else 2 - 0.15 * 2) *
                 Real.sin (i * (2 * Real.pi / ((3 : ℕ) : ℝ) / 2)))) ∧
     (CodeGenerator.gearPoints 2 3)[(0 : ℕ)]? = some (2, 0) ∧
     (CodeGenerator.gearPoints 2 3)[(2 * 3 : ℕ)]? = some (2, 0)) :=
  ⟨by norm_num, gear_profile_polygon 2 3 (by norm_num)⟩

/-- C4 counterexample: the claim says `validate` returns valid=False exactly
when the DimensionSet has no non-null numeric values.  The DimensionSet
consisting of the single entry `fit = "H7"` (produced, e.g., by the prompt
"H7") has zero numeric values (`dimension_count = 0`), yet the code checks
only `not dims or all(v is None ...)` and returns valid=True. -/
theorem validate_fit_only_counterexample :
    (EnhancedParser.validate_parsed_dimensions
      [("fit", EnhancedParser.PyVal.pystr "H7")] "H7").valid = true ∧
    (EnhancedParser.validate_parsed_dimensions
      [("fit", EnhancedParser.PyVal.pystr "H7")] "H7").dimension_count = 0 := by
  constructor <;> rfl

/-- C4 amended: `validate_parsed_dimensions` returns valid=False iff the
dict is empty or every stored value is Python `None`; any other value —
including a numeric `0` or a non-numeric string such as a fit code — counts
as present and yields valid=True, and warnings never affect validity. -/
theorem validate_valid_iff_empty_or_all_none
    (dims : List (String × EnhancedParser.PyVal)) (prompt : String) :
    (EnhancedParser.validate_parsed_dimensions dims prompt).valid = false ↔
      (dims = [] ∨ ∀ p ∈ dims, p.2 = EnhancedParser.PyVal.pynone) := by
  have hcond : (dims.isEmpty || dims.all (fun p => p.2 == EnhancedParser.PyVal.pynone)) = true ↔
      (dims = [] ∨ ∀ p ∈ dims, p.2 = EnhancedParser.PyVal.pynone) := by
    simp [List.isEmpty_iff, List.all_eq_true]
  rw [← hcond]
  by_cases h : (dims.isEmpty || dims.all (fun p => p.2 == EnhancedParser.PyVal.pynone)) = true <;>
    simp [EnhancedParser.validate_parsed_dimensions, h]

/-- C5 counterexample: with an explicit diameter 20 and an explicit radius
5 both matched from the prompt, the stored radius is the derived `20 / 2 =
10`, not the parsed 5: the diameter branch assigns
`dims["radius"] = diameter / 2` unconditionally, after which the radius
guard `"radius" not in dims` of the radius branch blocks storing the parsed value. -/
theorem radius_overwritten_counterexample :
    EnhancedParser.applyDiaRad ⟨none, none⟩ (some 20) (some 5) =
      ⟨some 20, some 10⟩ ∧ (10 : ℚ) ≠ 5 := by
  constructor
  · norm_num [EnhancedParser.applyDiaRad]
  · norm_num

/-- C5 amended: the derivation stores the missing one of radius / diameter
as half / double the other and is idempotent, and an explicitly parsed
diameter is never overwritten — but when both an explicit diameter and an
explicit radius are parsed, the stored radius is `diameter / 2` and the
parsed radius is discarded. -/
theorem dia_rad_derivation_amended :
    (∀ (s : EnhancedParser.DiaRad) (dia rad : Option ℚ),
      EnhancedParser.applyDiaRad (EnhancedParser.applyDiaRad s dia rad) dia rad =
        EnhancedParser.applyDiaRad s dia rad) ∧
    (∀ (s : EnhancedParser.DiaRad) (d : ℚ),
      EnhancedParser.applyDiaRad s (some d) none = ⟨some d, some (d / 2)⟩) ∧
    (∀ r : ℚ,
      EnhancedParser.applyDiaRad ⟨none, none⟩ none (some r) = ⟨some (r * 2), some r⟩) ∧
    (∀ (s : EnhancedParser.DiaRad) (d r : ℚ),
      EnhancedParser.applyDiaRad s (some d) (some r) = ⟨some d, some (d / 2)⟩) := by
  refine ⟨?_, ?_, ?_, ?_⟩
  · intro s dia rad
    cases dia <;> cases rad <;>
      (simp only [EnhancedParser.applyDiaRad]; try split_ifs <;> simp_all)
  · intro s d
    simp [EnhancedParser.applyDiaRad]
  · intro r
    simp [EnhancedParser.applyDiaRad]
  · intro s d r
    simp [EnhancedParser.applyDiaRad]

/-- C6 counterexample: the claim says the inner (cutting) cylinder of the
washer / tube plans extends beyond the height of the outer cylinder on both
ends.  In the emitted scripts both cylinders are created with the same
height and no translation, so the inner cylinder does not start below the
outer solid (both sit at z = 0). -/
theorem washer_tube_coincident_counterexample :
    ¬ CodeGenerator.extendsBeyondBothEnds (CodeGenerator.washerPlan [("diameter", 20)]) ∧
    ¬ CodeGenerator.extendsBeyondBothEnds (CodeGenerator.tubePlan [("diameter", 30)]) := by
  constructor
  · rintro ⟨hz, hh⟩
    simp [CodeGenerator.washerPlan, CodeGenerator.extendsBeyondBothEnds] at hz
  · rintro ⟨hz, hh⟩
    simp [CodeGenerator.tubePlan, CodeGenerator.extendsBeyondBothEnds] at hz

/-- C6 amended: every washer and tube plan is an outer cylinder minus a
concentric inner cylinder whose height and base plane coincide exactly with
the outer ones (coincident faces at both ends), not an inner cylinder
extended beyond the outer solid. -/
theorem washer_tube_coincident_faces (dims : Dims) :
    (CodeGenerator.washerPlan dims).inner.height =
      (CodeGenerator.washerPlan dims).outer.height ∧
    (CodeGenerator.washerPlan dims).inner.zpos =
      (CodeGenerator.washerPlan dims).outer.zpos ∧
    (CodeGenerator.washerPlan dims).outer.zpos = 0 ∧
    (CodeGenerator.tubePlan dims).inner.height =
      (CodeGenerator.tubePlan dims).outer.height ∧
    (CodeGenerator.tubePlan dims).inner.zpos =
      (CodeGenerator.tubePlan dims).outer.zpos ∧
    (CodeGenerator.tubePlan dims).outer.zpos = 0 :=
  ⟨rfl, rfl, rfl, rfl, rfl, rfl⟩

/-- C7 counterexample: a zero tooth count is an invalid parameter
combination (the example given by the claim itself), yet both generators succeed rather
than reporting a structured failure: `server.py` silently substitutes the
default 20 teeth (`int(dims.get("teeth") or 20)` is falsy on 0), and
`main.py` silently embeds the degenerate 0 into the emitted script. -/
theorem gear_zero_teeth_no_failure :
    CodeGenerator.serverGenerate "gear" [("teeth", 0)] none =
      CodeGenerator.GenResult.ok (CodeGenerator.Plan.gear 30 10 20) [] ∧
    CodeGenerator.mainGenerate "gear" [("teeth", 0)] none =
      CodeGenerator.GenResult.ok (CodeGenerator.Plan.gear 30 10 0) [] := by
  constructor
  · simp +decide [CodeGenerator.serverGenerate, dimsGet, pyOrD, pyOr2, truthy, pyInt,
      List.find?]
    all_goals norm_num
  · simp +decide [CodeGenerator.mainGenerate, dimsGet, dimsGetD, pyOrD, pyOr2, truthy,
      pyInt, List.find?]
    all_goals norm_num

/-- C7 amended: plan construction never signals a structured failure: for
every shape, DimensionSet and fit code both generators return a successful
plan (no `GeometryError` exists; the empty-script return of the `except` branch
is unreachable over numeric dimension sets), and a zero tooth count is
silently replaced by the default 20 in `server.py`. -/
theorem generate_never_fails :
    (∀ (shape : String) (dims : Dims) (fit : Option String),
      CodeGenerator.serverGenerate shape dims fit ≠ CodeGenerator.GenResult.failed) ∧
    (∀ (shape : String) (dims : Dims) (fit : Option String),
      CodeGenerator.mainGenerate shape dims fit ≠ CodeGenerator.GenResult.failed) ∧
    (∀ (dims : Dims) (fit : Option String), dimsGet dims "teeth" = some 0 →
      CodeGenerator.serverGenerate "gear" dims fit =
        CodeGenerator.GenResult.ok
          (CodeGenerator.Plan.gear
            (pyOrD (dimsGet dims "radius") (pyOrD (dimsGet dims "diameter") 60 / 2))
            (pyOrD (dimsGet dims "height") 10) 20) []) := by
  refine ⟨?_, ?_, ?_⟩
  · intro shape dims fit
    unfold CodeGenerator.serverGenerate
    repeat' split
    all_goals try simp
    all_goals split <;> simp
  · intro shape dims fit
    unfold CodeGenerator.mainGenerate
    repeat' split
    all_goals try simp
    all_goals split <;> simp
  · intro dims fit hteeth
    unfold CodeGenerator.serverGenerate
    rw [if_neg (by decide), if_neg (by decide), if_neg (by decide), if_pos rfl, hteeth]
    norm_num [pyOrD, pyInt]

/-- Every material entry, and hence the fallback lookup for any material
string, has positive density and positive price per gram. -/
theorem materialsGet_pos (m : String) :
    0 < (DFMAnalyzer.materialsGet m).density ∧
    0 < (DFMAnalyzer.materialsGet m).price_per_gram := by
  unfold DFMAnalyzer.materialsGet
  rcases hfind : List.find? (fun p => p.1 == m) DFMAnalyzer.MATERIALS with _ | p
  · rw [hfind]
    constructor <;> norm_num [DFMAnalyzer.steelProps]
  · rw [hfind]
    have hmem := List.mem_of_find?_eq_some hfind
    simp only [Option.map_some', Option.getD_some]
    simp [DFMAnalyzer.MATERIALS] at hmem
    rcases hmem with h | h | h | h | h | h | h <;>
      (subst h; constructor <;> norm_num [DFMAnalyzer.steelProps])

/-- The box branch of `CostCalculator.calculate`: for nonzero present
length / width / height, the computed volume is `l*w*h / 1000` cm³ and the
material cost is volume × density × price-per-gram. -/
theorem calculate_box_fields (m : String) (l w h : ℚ)
    (hl : l ≠ 0) (hw : w ≠ 0) (hh : h ≠ 0) :
    (CostCalculator.calculate "box" (boxDims l w h) m).volume_cm3 = l * w * h / 1000 ∧
    (CostCalculator.calculate "box" (boxDims l w h) m).material_cost =
      l * w * h / 1000 * (DFMAnalyzer.materialsGet m).density *
        (DFMAnalyzer.materialsGet m).price_per_gram := by
  constructor <;>
    simp +decide [CostCalculator.calculate, CostCalculator.geom, boxDims, dimsGet,
      pyOrD, List.find?, hl, hw, hh]

/-- C8 counterexample: the inner diameter of the washer is a linear dimension of
the DimensionSet, yet increasing it from 10 to 12 (outer diameter 20,
height 2, steel) strictly decreases both the computed volume and the
material cost, contradicting the claimed strict monotonicity for every
linear dimension. -/
theorem washer_inner_diameter_decreases_cost :
    (10 : ℚ) < 12 ∧
    (CostCalculator.calculate "washer"
        [("diameter", 20), ("inner_diameter", 12), ("height", 2)] "steel").volume_cm3 <
      (CostCalculator.calculate "washer"
        [("diameter", 20), ("inner_diameter", 10), ("height", 2)] "steel").volume_cm3 ∧
    (CostCalculator.calculate "washer"
        [("diameter", 20), ("inner_diameter", 12), ("height", 2)] "steel").material_cost <
      (CostCalculator.calculate "washer"
        [("diameter", 20), ("inner_diameter", 10), ("height", 2)] "steel").material_cost := by
  refine ⟨by norm_num, ?_, ?_⟩ <;>
    (simp +decide [CostCalculator.calculate, CostCalculator.geom, DFMAnalyzer.materialsGet,
      DFMAnalyzer.MATERIALS, DFMAnalyzer.steelProps, dimsGet, pyOrD, pyOr2, truthy,
      List.find?]
     all_goals norm_num)

/-- C8 amended: for the box shape and any material, increasing any single
one of the present, positive length / width / height while holding the
others fixed strictly increases the computed volume and the computed
(pre-rounding) material cost; the claim fails for subtractive dimensions
such as the inner diameter of a washer. -/
theorem box_cost_monotone (m : String) (l w h l2 w2 h2 : ℚ)
    (hl : 0 < l) (hw : 0 < w) (hh : 0 < h)
    (hl2 : l < l2) (hw2 : w < w2) (hh2 : h < h2) :
    ((CostCalculator.calculate "box" (boxDims l w h) m).volume_cm3 <
       (CostCalculator.calculate "box" (boxDims l2 w h) m).volume_cm3 ∧
     (CostCalculator.calculate "box" (boxDims l w h) m).material_cost <
       (CostCalculator.calculate "box" (boxDims l2 w h) m).material_cost) ∧
    ((CostCalculator.calculate "box" (boxDims l w h) m).volume_cm3 <
       (CostCalculator.calculate "box" (boxDims l w2 h) m).volume_cm3 ∧
     (CostCalculator.calculate "box" (boxDims l w h) m).material_cost <
       (CostCalculator.calculate "box" (boxDims l w2 h) m).material_cost) ∧
    ((CostCalculator.calculate "box" (boxDims l w h) m).volume_cm3 <
       (CostCalculator.calculate "box" (boxDims l w h2) m).volume_cm3 ∧
     (CostCalculator.calculate "box" (boxDims l w h) m).material_cost <
       (CostCalculator.calculate "box" (boxDims l w h2) m).material_cost) := by
  obtain ⟨hd, hp⟩ := materialsGet_pos m
  have hl2p : 0 < l2 := hl.trans hl2
  have hw2p : 0 < w2 := hw.trans hw2
  have hh2p : 0 < h2 := hh.trans hh2
  obtain ⟨hv1, hc1⟩ := calculate_box_fields m l w h hl.ne' hw.ne' hh.ne'
  obtain ⟨hv2, hc2⟩ := calculate_box_fields m l2 w h hl2p.ne' hw.ne' hh.ne'
  obtain ⟨hv3, hc3⟩ := calculate_box_fields m l w2 h hl.ne' hw2p.ne' hh.ne'
  obtain ⟨hv4, hc4⟩ := calculate_box_fields m l w h2 hl.ne' hw.ne' hh2p.ne'
  refine ⟨⟨?_, ?_⟩, ⟨?_, ?_⟩, ⟨?_, ?_⟩⟩
  · rw [hv1, hv2]; gcongr
  · rw [hc1, hc2]; gcongr
  · rw [hv1, hv3]; gcongr
  · rw [hc1, hc3]; gcongr
  · rw [hv1, hv4]; gcongr
  · rw [hc1, hc4]; gcongr

/-- Witness for the amended theorem of C8: steel box 50×50×10, each dimension
increased in turn (to 60 / 51 / 11). -/
theorem box_cost_monotone_witness :
    (0 : ℚ) < 50 ∧ (0 : ℚ) < 50 ∧ (0 : ℚ) < 10 ∧
    (50 : ℚ) < 60 ∧ (50 : ℚ) < 51 ∧ (10 : ℚ) < 11 ∧
    (((CostCalculator.calculate "box" (boxDims 50 50 10) "steel").volume_cm3 <
        (CostCalculator.calculate "box" (boxDims 60 50 10) "steel").volume_cm3 ∧
      (CostCalculator.calculate "box" (boxDims 50 50 10) "steel").material_cost <
        (CostCalculator.calculate "box" (boxDims 60 50 10) "steel").material_cost) ∧
     ((CostCalculator.calculate "box" (boxDims 50 50 10) "steel").volume_cm3 <
        (CostCalculator.calculate "box" (boxDims 50 51 10) "steel").volume_cm3 ∧
      (CostCalculator.calculate "box" (boxDims 50 50 10) "steel").material_cost <
        (CostCalculator.calculate "box" (boxDims 50 51 10) "steel").material_cost) ∧
     ((CostCalculator.calculate "box" (boxDims 50 50 10) "steel").volume_cm3 <
        (CostCalculator.calculate "box" (boxDims 50 50 11) "steel").volume_cm3 ∧
      (CostCalculator.calculate "box" (boxDims 50 50 10) "steel").material_cost <
        (CostCalculator.calculate "box" (boxDims 50 50 11) "steel").material_cost)) :=
  ⟨by norm_num, by norm_num, by norm_num, by norm_num, by norm_num, by norm_num,
   box_cost_monotone "steel" 50 50 10 60 51 11 (by norm_num) (by norm_num) (by norm_num)
     (by norm_num) (by norm_num) (by norm_num)⟩

/-- Half-up quantization to six decimal places is the identity on any
non-negative rational that already has at most six decimal places. -/
theorem quantize6_exact (x : ℚ) (hx : 0 ≤ x) (hden : (x * 1000000).den = 1) :
    EnhancedParser.quantize6 x = x := by
  have hnum : ((x * 1000000).num : ℚ) = x * 1000000 := by
    conv_rhs => rw [← Rat.num_div_den (x * 1000000)]
    rw [hden]
    norm_num
  have hfloor : ⌊x * 1000000 + 1 / 2⌋ = (x * 1000000).num := by
    rw [← hnum, Int.floor_int_add]
    norm_num
  unfold EnhancedParser.quantize6
  rw [if_neg (not_lt.mpr hx), hfloor, hnum]
  field_simp

/-- C9: the unit-conversion table holds exactly the claimed multipliers
(mm = 1, cm = 10, m = 1000, in = 25.4, ft = 304.8); a dimension of
"2 inch" is stored as exactly 50.8 mm; and for any non-negative value with
at most five decimal places, inch conversion is exact: the stored value is
exactly `v * 25.4` (the six-decimal half-up rounding does not move it). -/
theorem unit_conversion_exact (v : ℚ) (hv : 0 ≤ v) (hden : (v * 100000).den = 1) :
    EnhancedParser.convFactor "mm" = 1 ∧
    EnhancedParser.convFactor "cm" = 10 ∧
    EnhancedParser.convFactor "m" = 1000 ∧
    EnhancedParser.convFactor "in" = 25.4 ∧
    EnhancedParser.convFactor "inch" = 25.4 ∧
    EnhancedParser.convFactor "ft" = 304.8 ∧
    EnhancedParser.storeDim 2 "inch" = 50.8 ∧
    EnhancedParser.storeDim v "in" = v * 25.4 := by
  have hnum : ((v * 100000).num : ℚ) = v * 100000 := by
    conv_rhs => rw [← Rat.num_div_den (v * 100000)]
    rw [hden]
    norm_num
  have hf_in : EnhancedParser.convFactor "in" = 25.4 := by
    simp +decide [EnhancedParser.convFactor, EnhancedParser.UNIT_CONVERSIONS, List.find?]
  have hf_inch : EnhancedParser.convFactor "inch" = 25.4 := by
    simp +decide [EnhancedParser.convFactor, EnhancedParser.UNIT_CONVERSIONS, List.find?]
  have hstore2 : EnhancedParser.storeDim 2 "inch" = 50.8 := by
    unfold EnhancedParser.storeDim
    rw [hf_inch, show (2 : ℚ) * 25.4 = 50.8 by norm_num]
    refine quantize6_exact 50.8 (by norm_num) ?_
    rw [show (50.8 * 1000000 : ℚ) = ((50800000 : ℤ) : ℚ) by norm_num]
    exact Rat.den_intCast 50800000
  have hstorev : EnhancedParser.storeDim v "in" = v * 25.4 := by
    unfold EnhancedParser.storeDim
    rw [hf_in]
    refine quantize6_exact (v * 25.4) (by positivity) ?_
    rw [show (v * 25.4 * 1000000 : ℚ) = v * 100000 * 254 by ring, ← hnum,
      show (((v * 100000).num : ℚ)) * 254 = (((v * 100000).num * 254 : ℤ) : ℚ) by push_cast; ring]
    exact Rat.den_intCast _
  refine ⟨?_, ?_, ?_, hf_in, hf_inch, ?_, hstore2, hstorev⟩
  · simp +decide [EnhancedParser.convFactor, EnhancedParser.UNIT_CONVERSIONS, List.find?]
    norm_num
  · simp +decide [EnhancedParser.convFactor, EnhancedParser.UNIT_CONVERSIONS, List.find?]
    norm_num
  · simp +decide [EnhancedParser.convFactor, EnhancedParser.UNIT_CONVERSIONS, List.find?]
    norm_num
  · simp +decide [EnhancedParser.convFactor, EnhancedParser.UNIT_CONVERSIONS, List.find?]

/-- Witness for C9 at `v = 2` (2 inch → 50.8 mm exactly). -/
theorem unit_conversion_exact_witness :
    (0 : ℚ) ≤ 2 ∧ ((2 : ℚ) * 100000).den = 1 ∧
    (EnhancedParser.convFactor "mm" = 1 ∧
     EnhancedParser.convFactor "cm" = 10 ∧
     EnhancedParser.convFactor "m" = 1000 ∧
     EnhancedParser.convFactor "in" = 25.4 ∧
     EnhancedParser.convFactor "inch" = 25.4 ∧
     EnhancedParser.convFactor "ft" = 304.8 ∧
     EnhancedParser.storeDim 2 "inch" = 50.8 ∧
     EnhancedParser.storeDim 2 "in" = 2 * 25.4) :=
  have hden : ((2 : ℚ) * 100000).den = 1 := by
    rw [show ((2 : ℚ) * 100000) = ((200000 : ℤ) : ℚ) by norm_num]
    exact Rat.den_intCast 200000
  ⟨by norm_num, hden, unit_conversion_exact 2 (by norm_num) hden⟩

/-- C10: for any material identifier that is not a key of the materials
table, the lookup falls back to the steel entry, and both the DFM analysis
(score, warnings, suggestions, recommended process) and the cost estimate
are exactly those computed for "steel"; neither function can fail on an
unknown material. -/
theorem unknown_material_steel_fallback (m shape : String) (dims : Dims)
    (h : List.find? (fun p => p.1 == m) DFMAnalyzer.MATERIALS = none) :
    DFMAnalyzer.materialsGet m = DFMAnalyzer.steelProps ∧
    (DFMAnalyzer.analyze shape dims m).score =
      (DFMAnalyzer.analyze shape dims "steel").score ∧
    (DFMAnalyzer.analyze shape dims m).warnings =
      (DFMAnalyzer.analyze shape dims "steel").warnings ∧
    (DFMAnalyzer.analyze shape dims m).suggestions =
      (DFMAnalyzer.analyze shape dims "steel").suggestions ∧
    (DFMAnalyzer.analyze shape dims m).recommended_process =
      (DFMAnalyzer.analyze shape dims "steel").recommended_process ∧
    CostCalculator.calculate shape dims m = CostCalculator.calculate shape dims "steel" := by
  have hget : DFMAnalyzer.materialsGet m = DFMAnalyzer.steelProps := by
    unfold DFMAnalyzer.materialsGet
    rw [h]
    rfl
  have hsteel : DFMAnalyzer.materialsGet "steel" = DFMAnalyzer.steelProps := by
    simp +decide [DFMAnalyzer.materialsGet, DFMAnalyzer.MATERIALS, List.find?]
  have habs : m ≠ "abs_plastic" := by
    intro hm
    subst hm
    have hmem : ("abs_plastic", (⟨1.04, 0.15, 1.0, "ABS Plastic"⟩ : DFMAnalyzer.MatProps)) ∈
        DFMAnalyzer.MATERIALS := by
      simp [DFMAnalyzer.MATERIALS]
    have := List.find?_eq_none.mp h _ hmem
    simp at this
  have hpoly : m ≠ "polycarb" := by
    intro hm
    subst hm
    have hmem : ("polycarb", (⟨1.20, 0.20, 0.95, "Polycarbonate"⟩ : DFMAnalyzer.MatProps)) ∈
        DFMAnalyzer.MATERIALS := by
      simp [DFMAnalyzer.MATERIALS]
    have := List.find?_eq_none.mp h _ hmem
    simp at this
  refine ⟨hget, ?_, ?_, ?_, ?_, ?_⟩ <;>
  · simp +decide [DFMAnalyzer.analyze, CostCalculator.calculate, hget, hsteel, habs, hpoly,
      DFMAnalyzer.steelProps]
    all_goals norm_num

/-- Witness for C10 at material "unobtainium", shape "gear",
dims `[("teeth", 8)]`. -/
theorem unknown_material_steel_fallback_witness :
    List.find? (fun p => p.1 == "unobtainium") DFMAnalyzer.MATERIALS = none ∧
    (DFMAnalyzer.materialsGet "unobtainium" = DFMAnalyzer.steelProps ∧
     (DFMAnalyzer.analyze "gear" [("teeth", 8)] "unobtainium").score =
       (DFMAnalyzer.analyze "gear" [("teeth", 8)] "steel").score ∧
     (DFMAnalyzer.analyze "gear" [("teeth", 8)] "unobtainium").warnings =
       (DFMAnalyzer.analyze "gear" [("teeth", 8)] "steel").warnings ∧
     (DFMAnalyzer.analyze "gear" [("teeth", 8)] "unobtainium").suggestions =
       (DFMAnalyzer.analyze "gear" [("teeth", 8)] "steel").suggestions ∧
     (DFMAnalyzer.analyze "gear" [("teeth", 8)] "unobtainium").recommended_process =
       (DFMAnalyzer.analyze "gear" [("teeth", 8)] "steel").recommended_process ∧
     CostCalculator.calculate "gear" [("teeth", 8)] "unobtainium" =
       CostCalculator.calculate "gear" [("teeth", 8)] "steel") :=
  have hfind : List.find? (fun p => p.1 == "unobtainium") DFMAnalyzer.MATERIALS = none := by
    simp +decide [DFMAnalyzer.MATERIALS, List.find?]
  ⟨hfind, unknown_material_steel_fallback "unobtainium" "gear" [("teeth", 8)] hfind⟩

/-- Witness for the amended theorem of C7 at `dims = [("teeth", 0)]`. -/
theorem generate_never_fails_witness :
    dimsGet [("teeth", 0)] "teeth" = some 0 ∧
    CodeGenerator.serverGenerate "gear" [("teeth", 0)] none =
      CodeGenerator.GenResult.ok
        (CodeGenerator.Plan.gear
          (pyOrD (dimsGet [("teeth", 0)] "radius")
            (pyOrD (dimsGet [("teeth", 0)] "diameter") 60 / 2))
          (pyOrD (dimsGet [("teeth", 0)] "height") 10) 20) [] :=
  ⟨by simp +decide [dimsGet, List.find?],
   generate_never_fails.2.2 [("teeth", 0)] none (by simp +decide [dimsGet, List.find?])⟩

